import Mathlib

/-!
Verification of the MCP Level 1 namespace-verification subsystem
(`00-namespaces/namespaces-mcp/level1/verification/`): a shallow embedding of
`verification-system.py` (the dispatcher), `dns-txt-verifier.py`,
`github-oauth-verifier.py` and `http-well-known-verifier.py`, followed by
theorems about the embedded code.

Modelling conventions:
- Network effects are passed explicitly: each verifier takes a "net" argument
  describing what every outbound request would observe, and returns the number
  of outbound requests it issued alongside its result.
- `datetime.utcnow()` is passed explicitly as `now : Nat` (Unix seconds); the
  ISO timestamp strings `verified_at` / `expires_at` are modelled as
  `Option Nat` (`none` for the empty string `""`, `some t` for the ISO render
  of time `t`), and `timedelta(days=365)` as `365 * 86400` seconds.
- `secrets.token_hex(16)` is passed explicitly as a `rand : String` argument.
- Python `Optional[str]` arguments are `Option String`; Python truthiness of
  strings is `pyTruthy`.
- SHA-256 is embedded concretely (`Sha256.sha256HexOfString` below is
  `hashlib.sha256(s.encode()).hexdigest()`).
-/

namespace Sha256

/-- Reduce a natural number modulo `2^32` (32-bit word arithmetic). -/
def w32 (n : Nat) : Nat := n % 4294967296

/-- Rotate a 32-bit word right by `n` bits. -/
def rotr (n w : Nat) : Nat := w32 ((w >>> n) ||| (w <<< (32 - n)))

def bigSigma0 (w : Nat) : Nat := rotr 2 w ^^^ rotr 13 w ^^^ rotr 22 w

def bigSigma1 (w : Nat) : Nat := rotr 6 w ^^^ rotr 11 w ^^^ rotr 25 w

def smallSigma0 (w : Nat) : Nat := rotr 7 w ^^^ rotr 18 w ^^^ (w >>> 3)

def smallSigma1 (w : Nat) : Nat := rotr 17 w ^^^ rotr 19 w ^^^ (w >>> 10)

def chFn (x y z : Nat) : Nat := (x &&& y) ^^^ ((x ^^^ 4294967295) &&& z)

def majFn (x y z : Nat) : Nat := (x &&& y) ^^^ (x &&& z) ^^^ (y &&& z)

/-- The 64 SHA-256 round constants (FIPS 180-4, written in decimal). -/
def roundK : List Nat :=
  [1116352408, 1899447441, 3049323471, 3921009573,
   961987163, 1508970993, 2453635748, 2870763221,
   3624381080, 310598401, 607225278, 1426881987,
   1925078388, 2162078206, 2614888103, 3248222580,
   3835390401, 4022224774, 264347078, 604807628,
   770255983, 1249150122, 1555081692, 1996064986,
   2554220882, 2821834349, 2952996808, 3210313671,
   3336571891, 3584528711, 113926993, 338241895,
   666307205, 773529912, 1294757372, 1396182291,
   1695183700, 1986661051, 2177026350, 2456956037,
   2730485921, 2820302411, 3259730800, 3345764771,
   3516065817, 3600352804, 4094571909, 275423344,
   430227734, 506948616, 659060556, 883997877,
   958139571, 1322822218, 1537002063, 1747873779,
   1955562222, 2024104815, 2227730452, 2361852424,
   2428436474, 2756734187, 3204031479, 3329325298]

/-- The eight 32-bit working registers of the SHA-256 compression function. -/
structure Regs where
  a : Nat
  b : Nat
  c : Nat
  d : Nat
  e : Nat
  f : Nat
  g : Nat
  h : Nat

def initRegs : Regs :=
  ⟨1779033703, 3144134277, 1013904242, 2773480762,
   1359893119, 2600822924, 528734635, 1541459225⟩

/-- Big-endian 8-byte encoding of the message bit length. -/
def lenBytes (bitLen : Nat) : List Nat :=
  [bitLen / 72057594037927936 % 256, bitLen / 281474976710656 % 256,
   bitLen / 1099511627776 % 256, bitLen / 4294967296 % 256,
   bitLen / 16777216 % 256, bitLen / 65536 % 256, bitLen / 256 % 256, bitLen % 256]

/-- SHA-256 message padding: append `0x80`, zeros, and the 64-bit big-endian length. -/
def padBytes (msg : List Nat) : List Nat :=
  let padZeros := (119 - msg.length % 64) % 64
  msg ++ [0x80] ++ List.replicate padZeros 0 ++ lenBytes (8 * msg.length)

/-- Assemble a big-endian 32-bit word from four bytes. -/
def word (b0 b1 b2 b3 : Nat) : Nat := b0 * 16777216 + b1 * 65536 + b2 * 256 + b3

/-- The sixteen 32-bit words of a 64-byte block. -/
def blockWords (block : List Nat) : Array Nat :=
  ((List.range 16).map (fun j =>
    word (block.getD (4 * j) 0) (block.getD (4 * j + 1) 0)
         (block.getD (4 * j + 2) 0) (block.getD (4 * j + 3) 0))).toArray

/-- Extend the 16 block words to the 64-entry message schedule. -/
def schedule (ws : Array Nat) : Array Nat :=
  (List.range 48).foldl (fun w i =>
    let t := i + 16
    w.push (w32 (w.getD (t - 16) 0 + smallSigma0 (w.getD (t - 15) 0) +
                 w.getD (t - 7) 0 + smallSigma1 (w.getD (t - 2) 0)))) ws

/-- One round of the SHA-256 compression function. -/
def round (st : Regs) (kw : Nat × Nat) : Regs :=
  let t1 := w32 (st.h + bigSigma1 st.e + chFn st.e st.f st.g + kw.1 + kw.2)
  let t2 := w32 (bigSigma0 st.a + majFn st.a st.b st.c)
  ⟨w32 (t1 + t2), st.a, st.b, st.c, w32 (st.d + t1), st.e, st.f, st.g⟩

/-- Process one 64-byte block, updating the hash state. -/
def processBlock (st : Regs) (block : List Nat) : Regs :=
  let ws := schedule (blockWords block)
  let r := (roundK.zip ws.toList).foldl round st
  ⟨w32 (st.a + r.a), w32 (st.b + r.b), w32 (st.c + r.c), w32 (st.d + r.d),
   w32 (st.e + r.e), w32 (st.f + r.f), w32 (st.g + r.g), w32 (st.h + r.h)⟩

/-- SHA-256 of a byte list, as the final eight registers. -/
def sha256Regs (msg : List Nat) : Regs :=
  let p := padBytes msg
  ((List.range (p.length / 64)).map (fun i => (p.drop (64 * i)).take 64)).foldl
    processBlock initRegs

/-- Big-endian byte decomposition of a 32-bit word. -/
def wordBytes (w : Nat) : List Nat := [w / 16777216 % 256, w / 65536 % 256, w / 256 % 256, w % 256]

/-- The 32 digest bytes. -/
def digestBytes (r : Regs) : List Nat :=
  wordBytes r.a ++ wordBytes r.b ++ wordBytes r.c ++ wordBytes r.d ++
  wordBytes r.e ++ wordBytes r.f ++ wordBytes r.g ++ wordBytes r.h

/-- The sixteen lowercase hexadecimal digits, 0-9 then a-f
(`Nat.digitChar` restricted below 16 is exactly this alphabet). -/
def hexDigits : List Char := (List.range 16).map Nat.digitChar

def hexDigit (n : Nat) : Char := hexDigits.getD (n % 16) '0'

def byteHex (b : Nat) : List Char := [hexDigit (b / 16), hexDigit b]

/-- Lowercase hex string of a byte list. -/
def hexOfBytes (bs : List Nat) : String := String.mk (bs.flatMap byteHex)

/-- UTF-8 encoding of one character, as a byte list. -/
def utf8Char (c : Char) : List Nat :=
  let n := c.toNat
  if n < 128 then [n]
  else if n < 2048 then [192 + n / 64, 128 + n % 64]
  else if n < 65536 then [224 + n / 4096, 128 + n / 64 % 64, 128 + n % 64]
  else [240 + n / 262144, 128 + n / 4096 % 64, 128 + n / 64 % 64, 128 + n % 64]

/-- UTF-8 encoding of a string, as a byte list. -/
def utf8Bytes (s : String) : List Nat := s.data.flatMap utf8Char

/-- `hashlib.sha256(s.encode()).hexdigest()`: lowercase hex digest of a string. -/
def sha256HexOfString (s : String) : String := hexOfBytes (digestBytes (sha256Regs (utf8Bytes s)))

end Sha256

/-! Python string primitives, embedded over `String.data` (the character list). -/

/-- Python `s.startswith(p)`. -/
def pyStartsWith (s p : String) : Bool := p.data.isPrefixOf s.data

/-- Python `s[n:]`. -/
def pyDrop (n : Nat) (s : String) : String := String.mk (s.data.drop n)

/-- The ASCII whitespace characters stripped by Python `str.strip()`. -/
def pyIsSpace (c : Char) : Bool :=
  c = ' ' || c = '\t' || c = '\n' || c = '\x0d' || c = '\x0b' || c = '\x0c'

/-- Strip characters satisfying `p` from both ends of a character list. -/
def pyStripList (p : Char → Bool) (l : List Char) : List Char :=
  ((l.dropWhile p).reverse.dropWhile p).reverse

/-- Python `s.strip()` (whitespace; the embedding covers the ASCII range). -/
def pyStrip (s : String) : String := String.mk (pyStripList pyIsSpace s.data)

/-- Python `s.strip('"')`. -/
def pyStripQuotes (s : String) : String :=
  String.mk (pyStripList (fun c => c = '"') s.data)

/-- The characters after the first `=`, or `[]` when there is no `=`
(the tail component of Python `s.split("=", 1)`). -/
def afterFirstEq : List Char → List Char
  | [] => []
  | c :: cs => if c = '=' then cs else afterFirstEq cs

/-- Python `s.split("=", 1)[1]` (used only when `"=" in s`). -/
def pySplitEqTail (s : String) : String := String.mk (afterFirstEq s.data)

/-- Python `c in s` for a single-character needle. -/
def pyContainsChar (s : String) (c : Char) : Bool := s.data.contains c

/-- Python truthiness of an `Optional[str]`: `None` and `""` are falsy. -/
def pyTruthy : Option String → Bool
  | none => false
  | some s => s != ""

/-! Embedding of `dns-txt-verifier.py` (`class DnsTxtVerifier`). -/

namespace DnsTxtVerifier

/-- `self.validity_period = timedelta(days=365)`, in seconds. -/
def validity_period : Nat := 365 * 86400

/-- `self.txt_record_prefix = "mcp-registry-verification"` (the constant TXT
record marker; renamed here from the source attribute). -/
def txtRecordMarker : String := "mcp-registry-verification"

/-- Outcome of one DNS TXT resolution, covering the branches of
`get_txt_records`: the `NXDOMAIN`, `NoAnswer`, `Timeout` and generic
exception handlers, or a successful answer (the `str(rdata)` values). -/
inductive DnsOutcome
  | nxdomain
  | noAnswer
  | timeoutErr
  | otherErr (msg : String)
  | answers (records : List String)
deriving DecidableEq

/-- The DNS world: what resolving TXT records of each domain observes. -/
abbrev DnsNet := String → DnsOutcome

/-- `extract_domain_from_namespace`. -/
def extract_domain_from_namespace (nsp : String) : Option String :=
  if pyStartsWith nsp "com." then some (pyDrop 4 nsp)
  else if pyStartsWith nsp "org." then some (pyDrop 4 nsp)
  else if pyStartsWith nsp "net." then some (pyDrop 4 nsp)
  else none

/-- `generate_verification_token(domain)`: SHA-256 hex digest of
`f"{domain}:{timestamp}:{secrets.token_hex(16)}"`, with the clock and the
random hex string passed explicitly. -/
def generate_verification_token (domain : String) (now : Nat) (rand : String) : String :=
  Sha256.sha256HexOfString (domain ++ ":" ++ Nat.repr now ++ ":" ++ rand)

/-- `get_txt_records(domain)`: `(success, txt_records, error)`. -/
def get_txt_records (net : DnsNet) (domain : String) :
    Bool × List String × Option String :=
  match net domain with
  | .answers rs => (true, rs.map pyStripQuotes, none)
  | .nxdomain => (false, [], some ("Domain " ++ domain ++ " does not exist"))
  | .noAnswer => (false, [], some ("No TXT records found for " ++ domain))
  | .timeoutErr => (false, [], some ("DNS query timeout for " ++ domain))
  | .otherErr m => (false, [], some ("DNS query failed: " ++ m))

/-- The `for record in txt_records` loop body of `verify_txt_record`:
returns `true` the first time a record matches, otherwise keeps scanning. -/
def txtLoop (expected_record marker_eq expected_token : String) :
    List String → Bool
  | [] => false
  | r :: rs =>
    if (r == expected_record || pyStartsWith r marker_eq) &&
       (if pyContainsChar r '=' then pySplitEqTail r else "") == expected_token
    then true
    else txtLoop expected_record marker_eq expected_token rs

/-- `verify_txt_record(domain, expected_token)`:
`(success, txt_records, error)`. -/
def verify_txt_record (net : DnsNet) (domain expected_token : String) :
    Bool × List String × Option String :=
  let r := get_txt_records net domain
  if r.1 = false then (false, [], r.2.2)
  else
    let expected_record := txtRecordMarker ++ "=" ++ expected_token
    if txtLoop expected_record (txtRecordMarker ++ "=") expected_token r.2.1
    then (true, r.2.1, none)
    else (false, r.2.1,
      some ("Verification TXT record not found. Expected: " ++ expected_record))

/-- `@dataclass DNSVerificationResult` (`namespace` is rendered `ns`). -/
structure DNSVerificationResult where
  success : Bool
  ns : String
  domain : String
  verification_method : String
  verified_at : Option Nat
  expires_at : Option Nat
  verification_token : String
  txt_records : List String
  error_message : Option String
deriving DecidableEq

/-- `verify_namespace(namespace, verification_token)`, paired with the number
of DNS queries issued. -/
def verify_namespace (net : DnsNet) (now : Nat) (nsp verification_token : String) :
    DNSVerificationResult × Nat :=
  match extract_domain_from_namespace nsp with
  | none =>
    (⟨false, nsp, "", "dns-txt", none, none, verification_token, [],
      some "Invalid namespace format for DNS TXT verification"⟩, 0)
  | some domain =>
    let g := get_txt_records net domain
    if g.1 = false then
      (⟨false, nsp, domain, "dns-txt", none, none, verification_token, [], g.2.2⟩, 1)
    else
      let t := verify_txt_record net domain verification_token
      if t.1 = false then
        (⟨false, nsp, domain, "dns-txt", none, none, verification_token, t.2.1, t.2.2⟩, 2)
      else
        (⟨true, nsp, domain, "dns-txt", some now, some (now + validity_period),
          verification_token, t.2.1, none⟩, 2)

end DnsTxtVerifier

/-! Embedding of `github-oauth-verifier.py` (`class GitHubOAuthVerifier`). -/

namespace GitHubOAuthVerifier

/-- `self.validity_period = timedelta(days=365)`, in seconds. -/
def validity_period : Nat := 365 * 86400

/-- The parsed JSON body of `GET /user`: `user_data.get("login")` and
`user_data.get("active", True)` are the only fields the code reads. -/
structure GhUser where
  login : Option String
  active : Option Bool
deriving DecidableEq

/-- Outcome of one `requests.get` call: a `requests.RequestException`, or a
response with a status code and parsed body. -/
inductive NetReply (β : Type) where
  | exn (msg : String)
  | resp (status : Nat) (body : β)

/-- The GitHub API world: responses of the three endpoints the verifier
queries (the organization endpoints as functions of the path parameters). -/
structure GitHubNet where
  userReply : NetReply GhUser
  memberReply : String → String → NetReply Unit
  orgReply : String → NetReply String

/-- The `Dict` second component of the `(bool, dict)` results: either the
`{"error": ...}` failure dict or the success payload. -/
inductive GhData where
  | errData (msg : String)
  | userData (u : GhUser)
  | orgData (u : GhUser) (org : String) (role : String)
deriving DecidableEq

/-- `data.get("error", "Verification failed")` as used by `verify_namespace`. -/
def getErrorD : GhData → String
  | .errData m => m
  | _ => "Verification failed"

/-- `generate_verification_token(namespace)`: SHA-256 hex digest of
`f"{namespace}:{timestamp}:{secrets.token_hex(16)}"`, with the clock and the
random hex string passed explicitly. -/
def generate_verification_token (nsp : String) (now : Nat) (rand : String) : String :=
  Sha256.sha256HexOfString (nsp ++ ":" ++ Nat.repr now ++ ":" ++ rand)

/-- `verify_github_user(username, oauth_token)`, paired with the number of
HTTP requests issued (always one: the `GET /user` call). -/
def verify_github_user (net : GitHubNet) (username : String) :
    (Bool × GhData) × Nat :=
  match net.userReply with
  | .exn m => ((false, .errData ("Request failed: " ++ m)), 1)
  | .resp status u =>
    if status ≠ 200 then ((false, .errData ("GitHub API error: " ++ toString status)), 1)
    else if u.login ≠ some username then ((false, .errData "Username mismatch"), 1)
    else if u.active.getD true = false then
      ((false, .errData "User account is not active"), 1)
    else ((true, .userData u), 1)

/-- The organization-membership and organization-metadata phase of
`verify_github_organization` (lines 101-125), entered after the `GET /user`
call succeeded with status 200. -/
def gh_member_check (net : GitHubNet) (org login : String) (u : GhUser) :
    (Bool × GhData) × Nat :=
  match net.memberReply org login with
  | .exn m => ((false, .errData ("Request failed: " ++ m)), 2)
  | .resp st _ =>
    if st ≠ 204 then ((false, .errData "Not a member of the organization"), 2)
    else
      match net.orgReply org with
      | .exn m => ((false, .errData ("Request failed: " ++ m)), 3)
      | .resp st2 orgBody =>
        if st2 ≠ 200 then ((false, .errData ("Organization not found: " ++ org)), 3)
        else ((true, .orgData u orgBody "member"), 3)

/-- `verify_github_organization(org_name, oauth_token)`, paired with the
request count. `user_data['login']` raises `KeyError` when the field is
absent; that exception is not a `requests.RequestException`, so it escapes
the handler — modelled as `Except.error` carrying the exception text and the
number of requests made before the raise. -/
def verify_github_organization (net : GitHubNet) (org : String) :
    Except (String × Nat) ((Bool × GhData) × Nat) :=
  match net.userReply with
  | .exn m => .ok ((false, .errData ("Request failed: " ++ m)), 1)
  | .resp status u =>
    if status ≠ 200 then
      .ok ((false, .errData ("GitHub API error: " ++ toString status)), 1)
    else
      match u.login with
      | none => .error ("KeyError: login", 1)
      | some login => .ok (gh_member_check net org login u)

/-- `@dataclass VerificationResult` (`namespace` is rendered `ns`). -/
structure VerificationResult where
  success : Bool
  ns : String
  verification_method : String
  verified_at : Option Nat
  expires_at : Option Nat
  verification_token : String
  error_message : Option String
deriving DecidableEq

/-- `namespace_part.split(".")[0]`: the segment before the first dot. -/
def orgNameOf (nspart : String) : String :=
  String.mk (nspart.data.takeWhile (fun c => c ≠ '.'))

/-- `verify_namespace(namespace, oauth_token)`, paired with the request
count; `Except.error` is an exception escaping to the caller. -/
def verify_namespace (net : GitHubNet) (now : Nat) (rand : String)
    (nsp oauth_token : String) :
    Except (String × Nat) (VerificationResult × Nat) :=
  if pyStartsWith nsp "io.github." = false then
    .ok (⟨false, nsp, "github-oauth", none, none, "",
      some "Invalid namespace format for GitHub OAuth verification"⟩, 0)
  else
    let nspart := pyDrop 10 nsp
    let vtok := generate_verification_token nsp now rand
    let step : Except (String × Nat) ((Bool × GhData) × Nat) :=
      if pyContainsChar nspart '.' then
        verify_github_organization net (orgNameOf nspart)
      else .ok (verify_github_user net nspart)
    match step with
    | .error e => .error e
    | .ok ((success, data), c) =>
      if success = false then
        .ok (⟨false, nsp, "github-oauth", none, none, vtok, some (getErrorD data)⟩, c)
      else
        .ok (⟨true, nsp, "github-oauth", some now, some (now + validity_period),
          vtok, none⟩, c)

end GitHubOAuthVerifier

/-! Embedding of `http-well-known-verifier.py` (`class HttpWellKnownVerifier`). -/

namespace HttpWellKnownVerifier

/-- `self.validity_period = timedelta(days=365)`, in seconds. -/
def validity_period : Nat := 365 * 86400

/-- `self.well_known_path = "/.well-known/mcp-registry-auth"`. -/
def well_known_path : String := "/.well-known/mcp-registry-auth"

/-- A parsed JSON value (what `response.json()` yields). -/
inductive JValue where
  | jnull
  | jbool (b : Bool)
  | jnum (n : Int)
  | jstr (s : String)
  | jarr (xs : List JValue)
  | jobj (fields : List (String × JValue))

/-- A fetched response body: a valid JSON document, or plain text
(`json.JSONDecodeError` branch). -/
inductive HttpBody where
  | jsonBody (j : JValue)
  | textBody (s : String)

/-- Outcome of one `requests.get` of a URL: the three handled exception
kinds, or a response with status code, `content-type` header and body. -/
inductive HttpAttempt where
  | timeoutE
  | connectionE
  | requestE (msg : String)
  | resp (status : Nat) (contentType : String) (body : HttpBody)

/-- The HTTP world: what a GET of each URL observes. -/
abbrev HttpNet := String → HttpAttempt

/-- The `content` entry of the dict built by `fetch_verification_endpoint`:
the parsed JSON document, or the stripped plain text. -/
inductive PyContent where
  | ofJson (j : JValue)
  | ofText (s : String)

/-- The dict returned by a successful `fetch_verification_endpoint`. -/
structure FetchData where
  url : String
  status_code : Nat
  content : PyContent
  content_type : String

/-- `extract_domain_from_namespace` (identical to the DNS verifier's). -/
def extract_domain_from_namespace (nsp : String) : Option String :=
  if pyStartsWith nsp "com." then some (pyDrop 4 nsp)
  else if pyStartsWith nsp "org." then some (pyDrop 4 nsp)
  else if pyStartsWith nsp "net." then some (pyDrop 4 nsp)
  else none

/-- `generate_verification_token(domain)` (identical to the DNS verifier's). -/
def generate_verification_token (domain : String) (now : Nat) (rand : String) : String :=
  Sha256.sha256HexOfString (domain ++ ":" ++ Nat.repr now ++ ":" ++ rand)

/-- `build_endpoint_url(domain, use_https)`. -/
def build_endpoint_url (domain : String) (use_https : Bool) : String :=
  (if use_https then "https" else "http") ++ "://" ++ domain ++ well_known_path

/-- One iteration of the `for url in urls_to_try` loop: `some` of the result
dict when the GET returned status 200 (JSON parsed if possible, else stripped
text), `none` when this attempt failed (exception or non-200 status). -/
def tryFetchUrl (net : HttpNet) (url : String) : Option FetchData :=
  match net url with
  | .resp status ct body =>
    if status = 200 then
      some (match body with
        | .jsonBody j => ⟨url, status, .ofJson j, ct⟩
        | .textBody s => ⟨url, status, .ofText (pyStrip s), ct⟩)
    else none
  | _ => none

/-- `fetch_verification_endpoint(domain)`: `(response_data, error)` — `some`
data on success (`(True, {...}, None)` in the source), otherwise the
`endpoint unreachable` error (`(False, {}, "Unable to fetch ...")`) — paired
with the number of GET attempts issued. -/
def fetch_verification_endpoint (net : HttpNet) (domain : String) :
    (Option FetchData × Option String) × Nat :=
  match tryFetchUrl net (build_endpoint_url domain true) with
  | some d => ((some d, none), 1)
  | none =>
    match tryFetchUrl net (build_endpoint_url domain false) with
    | some d => ((some d, none), 2)
    | none =>
      ((none, some "Unable to fetch verification endpoint from either HTTP or HTTPS"), 2)

/-- Python `content.get(key) == expected_token` where `content` is a JSON
dict: true exactly when the key maps to the string `expected_token`. -/
def jsonFieldEqStr (fields : List (String × JValue)) (key expected : String) : Bool :=
  match fields.lookup key with
  | some (.jstr s) => s == expected
  | _ => false

/-- `verify_token_in_response(response_data, expected_token)`. -/
def verify_token_in_response (response_data : FetchData) (expected_token : String) : Bool :=
  match response_data.content with
  | .ofJson (.jobj fields) =>
    jsonFieldEqStr fields "token" expected_token ||
    jsonFieldEqStr fields "verification_token" expected_token ||
    jsonFieldEqStr fields "mcp_registry_token" expected_token ||
    jsonFieldEqStr fields "auth_token" expected_token
  | .ofJson (.jstr s) => pyStrip s == expected_token
  | .ofJson _ => false
  | .ofText s => pyStrip s == expected_token

/-- `@dataclass HTTPVerificationResult` (`namespace` is rendered `ns`;
`response_content` holds the content value whose `str()` the source stores,
`none` for `""`). -/
structure HTTPVerificationResult where
  success : Bool
  ns : String
  domain : String
  verification_method : String
  verified_at : Option Nat
  expires_at : Option Nat
  verification_token : String
  endpoint_url : String
  http_status : Nat
  response_content : Option PyContent
  error_message : Option String

/-- `verify_namespace(namespace, verification_token)`, paired with the number
of GET attempts issued. -/
def verify_namespace (net : HttpNet) (now : Nat) (nsp verification_token : String) :
    HTTPVerificationResult × Nat :=
  match extract_domain_from_namespace nsp with
  | none =>
    (⟨false, nsp, "", "http-well-known", none, none, verification_token, "", 0, none,
      some "Invalid namespace format for HTTP verification"⟩, 0)
  | some domain =>
    let f := fetch_verification_endpoint net domain
    match f.1.1 with
    | none =>
      (⟨false, nsp, domain, "http-well-known", none, none, verification_token, "", 0, none,
        f.1.2⟩, f.2)
    | some d =>
      if verify_token_in_response d verification_token = false then
        (⟨false, nsp, domain, "http-well-known", none, none, verification_token, d.url,
          d.status_code, some d.content,
          some ("Verification token not found in response from " ++ d.url)⟩, f.2)
      else
        (⟨true, nsp, domain, "http-well-known", some now, some (now + validity_period),
          verification_token, d.url, d.status_code, some d.content, none⟩, f.2)

end HttpWellKnownVerifier

/-! Embedding of `verification-system.py` (`class MCPVerificationSystem`). -/

namespace MCPVerificationSystem

/-- `class VerificationMethod(Enum)`. -/
inductive VerificationMethod where
  | GITHUB_OAUTH
  | DNS_TXT
  | HTTP_WELL_KNOWN
deriving DecidableEq

/-- The `.value` of each enum member. -/
def VerificationMethod.value : VerificationMethod → String
  | .GITHUB_OAUTH => "github-oauth"
  | .DNS_TXT => "dns-txt"
  | .HTTP_WELL_KNOWN => "http-well-known"

/-- `determine_verification_method(namespace)`. -/
def determine_verification_method (nsp : String) : Option VerificationMethod :=
  if pyStartsWith nsp "io.github." then some .GITHUB_OAUTH
  else if pyStartsWith nsp "com." || pyStartsWith nsp "org." || pyStartsWith nsp "net." then
    some .DNS_TXT
  else none

/-- `details=asdict(result)`: the delegate result embedded in the dispatcher
result (`{}` is `noDetails`). -/
inductive VerifyDetails where
  | noDetails
  | ghDetails (r : GitHubOAuthVerifier.VerificationResult)
  | dnsDetails (r : DnsTxtVerifier.DNSVerificationResult)
  | httpDetails (r : HttpWellKnownVerifier.HTTPVerificationResult)

/-- `@dataclass NamespaceVerification` (`namespace` is rendered `ns`). -/
structure NamespaceVerification where
  ns : String
  verification_method : String
  success : Bool
  verified_at : Option Nat
  expires_at : Option Nat
  verification_token : String
  details : VerifyDetails
  error_message : Option String

/-- `tokens.get(namespace) if tokens else None` — `None` and the empty dict
are falsy. -/
def pyDictGet (tokens : Option (List (String × String))) (k : String) : Option String :=
  match tokens with
  | none => none
  | some d => if d.isEmpty then none else d.lookup k

/-- `verify_namespace(namespace, verification_token=None, oauth_token=None)`,
paired with the number of outbound network calls issued. The `except
Exception` handler corresponds to the `Except.error` results of the GitHub
delegate. -/
def verify_namespace (ghNet : GitHubOAuthVerifier.GitHubNet)
    (dnsNet : DnsTxtVerifier.DnsNet) (httpNet : HttpWellKnownVerifier.HttpNet)
    (now : Nat) (rand : String) (nsp : String)
    (verification_token oauth_token : Option String) :
    NamespaceVerification × Nat :=
  match determine_verification_method nsp with
  | none =>
    (⟨nsp, "none", false, none, none, "", .noDetails,
      some "Unsupported namespace format"⟩, 0)
  | some m =>
    match m with
    | .GITHUB_OAUTH =>
      if pyTruthy oauth_token = false then
        (⟨nsp, m.value, false, none, none, "", .noDetails,
          some "OAuth token required for GitHub verification"⟩, 0)
      else
        match GitHubOAuthVerifier.verify_namespace ghNet now rand nsp (oauth_token.getD "") with
        | .ok (r, c) =>
          (⟨r.ns, r.verification_method, r.success, r.verified_at, r.expires_at,
            r.verification_token, .ghDetails r, r.error_message⟩, c)
        | .error (e, c) =>
          (⟨nsp, m.value, false, none, none, "", .noDetails,
            some ("Verification system error: " ++ e)⟩, c)
    | .DNS_TXT =>
      if pyTruthy verification_token = false then
        (⟨nsp, m.value, false, none, none, "", .noDetails,
          some "Verification token required for DNS verification"⟩, 0)
      else
        let rc := DnsTxtVerifier.verify_namespace dnsNet now nsp (verification_token.getD "")
        (⟨rc.1.ns, rc.1.verification_method, rc.1.success, rc.1.verified_at,
          rc.1.expires_at, rc.1.verification_token, .dnsDetails rc.1,
          rc.1.error_message⟩, rc.2)
    | .HTTP_WELL_KNOWN =>
      if pyTruthy verification_token = false then
        (⟨nsp, m.value, false, none, none, "", .noDetails,
          some "Verification token required for HTTP verification"⟩, 0)
      else
        let rc := HttpWellKnownVerifier.verify_namespace httpNet now nsp
          (verification_token.getD "")
        (⟨rc.1.ns, rc.1.verification_method, rc.1.success, rc.1.verified_at,
          rc.1.expires_at, rc.1.verification_token, .httpDetails rc.1,
          rc.1.error_message⟩, rc.2)

/-- `batch_verify(namespaces, tokens=None, oauth_token=None)`: the
`results = []; for namespace in namespaces: ... results.append(...)` loop. -/
def batch_verify (ghNet : GitHubOAuthVerifier.GitHubNet)
    (dnsNet : DnsTxtVerifier.DnsNet) (httpNet : HttpWellKnownVerifier.HttpNet)
    (now : Nat) (rand : String) (namespaces : List String)
    (tokens : Option (List (String × String))) (oauth_token : Option String) :
    List NamespaceVerification :=
  namespaces.foldl (fun results nsp =>
    results ++ [(verify_namespace ghNet dnsNet httpNet now rand nsp
      (pyDictGet tokens nsp) oauth_token).1]) []

end MCPVerificationSystem


/-! Definitions used to state the claims. -/

/-- The success/failure shape of a verification result, as claimed: success
carries no error message and an expiry exactly one validity period after the
verification time; failure carries empty timestamps and a non-empty error
message. -/
def ResultTimeInvariant (validity : Nat) (success : Bool)
    (verified_at expires_at : Option Nat) (error_message : Option String) : Prop :=
  (success = true → error_message = none ∧
    ∃ t, verified_at = some t ∧ expires_at = some (t + validity)) ∧
  (success = false → verified_at = none ∧ expires_at = none ∧
    ∃ m, error_message = some m ∧ m ≠ "")

/-- `ResultTimeInvariant` lifted over the GitHub verifier's `Except` result
(an escaped exception imposes nothing). -/
def GhExceptInvariant (e : Except (String × Nat) (GitHubOAuthVerifier.VerificationResult × Nat)) : Prop :=
  ∀ r c, e = .ok (r, c) →
    ResultTimeInvariant GitHubOAuthVerifier.validity_period r.success r.verified_at
      r.expires_at r.error_message

/-- An HTTP GET attempt that does not count as fetched: an exception, or any
status other than 200. -/
def attemptFailed : HttpWellKnownVerifier.HttpAttempt → Prop
  | .resp st _ _ => st ≠ 200
  | _ => True

/-- The request count of a GitHub verification step, whether or not an
exception escaped. -/
def ghCallCount {α : Type} (e : Except (String × Nat) (α × Nat)) : Nat :=
  match e with
  | .ok (_, c) => c
  | .error (_, c) => c

/-- A concrete DNS world: every domain resolves to the two TXT records of the
spec's worked example. -/
def c4net : DnsTxtVerifier.DnsNet := fun _ =>
  .answers ["mcp-registry-verification=abc123", "other-record"]

/-- A concrete GitHub world: `GET /user` yields status 200 with an inactive
account whose login is `bob`; `bob` is a member of every organization, and
every organization exists. -/
def c7net : GitHubOAuthVerifier.GitHubNet where
  userReply := .resp 200 ⟨some "bob", some false⟩
  memberReply := fun _ _ => .resp 204 ()
  orgReply := fun _ => .resp 200 "org-metadata"

/-- A concrete GitHub world: `GET /user` yields status 200 with the active
user `alice`; the organization endpoints never answer. -/
def c8net : GitHubOAuthVerifier.GitHubNet where
  userReply := .resp 200 ⟨some "alice", none⟩
  memberReply := fun _ _ => .exn "unreached"
  orgReply := fun _ => .exn "unreached"

/-- A concrete HTTP world: the HTTPS well-known URL of `example` serves the
JSON document from the spec's worked example; every other URL times out. -/
def c5net : HttpWellKnownVerifier.HttpNet := fun url =>
  if url = "https://example/.well-known/mcp-registry-auth" then
    .resp 200 "application/json" (.jsonBody (.jobj [("token", .jstr "T")]))
  else .timeoutE

/-- The token the DNS verifier generates for the fixed subject `com.example`
and the fixed random string `deadbeef`, as a function of the timestamp. -/
def tokenAtTime (t : Nat) : String :=
  DnsTxtVerifier.generate_verification_token "com.example" t "deadbeef"

/-- The index of a character in the lowercase hex alphabet, clipped to
`Fin 16`. -/
def hexIndex (c : Char) : Fin 16 :=
  ⟨(Sha256.hexDigits.indexOf c) % 16, Nat.mod_lt _ (by norm_num)⟩

/-- The hex-digit code word of a generated token: its 64 characters as
values in `Fin 16`. -/
def tokenCode (t : Nat) : Fin 64 → Fin 16 := fun i =>
  hexIndex ((tokenAtTime t).data.getD i.val 'z')

/-- Rebuild a 64-character hex string from its code word. -/
def reconFromCode (φ : Fin 64 → Fin 16) : List Char :=
  (List.finRange 64).map (fun i => Sha256.hexDigits.getD (φ i).val 'z')

/-! Generic helper lemmas. -/

lemma string_append_ne_empty (a b : String) (h : a ≠ "") : a ++ b ≠ "" := by
  intro hc
  apply h
  have hd := congrArg String.data hc
  rw [String.data_append] at hd
  apply String.ext
  exact (List.append_eq_nil.mp hd).1

lemma pyStartsWith_cons_head {a : Char} {as : List Char} {s : String}
    (h : pyStartsWith s (String.mk (a :: as)) = true) :
    ∃ t, s.data = a :: t := by
  unfold pyStartsWith at h
  rw [List.isPrefixOf_iff_prefix] at h
  obtain ⟨t, ht⟩ := h
  exact ⟨as ++ t, by simpa using ht.symm⟩

lemma pyStartsWith_eq_append {s p : String} (h : pyStartsWith s p = true) :
    ∃ t, s.data = p.data ++ t := by
  unfold pyStartsWith at h
  rw [List.isPrefixOf_iff_prefix] at h
  obtain ⟨t, ht⟩ := h
  exact ⟨t, ht.symm⟩

lemma isPrefixOf_cons_ne {a b : Char} (h : a ≠ b) (as bs : List Char) :
    List.isPrefixOf (a :: as) (b :: bs) = false := by
  simp [List.isPrefixOf, h]

/-- A `com.`/`org.`/`net.`-prefixed string is not `io.github.`-prefixed. -/
lemma not_io_github_of_domain_style {nsp : String}
    (h : (pyStartsWith nsp "com." || pyStartsWith nsp "org." || pyStartsWith nsp "net.") = true) :
    pyStartsWith nsp "io.github." = false := by
  have hio : "io.github.".data = 'i' :: "o.github.".data := rfl
  rcases (by simpa using h : (pyStartsWith nsp "com." = true ∨ pyStartsWith nsp "org." = true) ∨
      pyStartsWith nsp "net." = true) with (h1 | h1) | h1
  · obtain ⟨t, ht⟩ := pyStartsWith_eq_append h1
    rw [show "com.".data = 'c' :: "om.".data from rfl, List.cons_append] at ht
    unfold pyStartsWith
    rw [ht, hio]
    exact isPrefixOf_cons_ne (by decide) _ _
  · obtain ⟨t, ht⟩ := pyStartsWith_eq_append h1
    rw [show "org.".data = 'o' :: "rg.".data from rfl, List.cons_append] at ht
    unfold pyStartsWith
    rw [ht, hio]
    exact isPrefixOf_cons_ne (by decide) _ _
  · obtain ⟨t, ht⟩ := pyStartsWith_eq_append h1
    rw [show "net.".data = 'n' :: "et.".data from rfl, List.cons_append] at ht
    unfold pyStartsWith
    rw [ht, hio]
    exact isPrefixOf_cons_ne (by decide) _ _

/-- Claim C2: `determine_verification_method` returns github_oauth for
`io.github.`-prefixed namespaces, dns_txt for `com.`/`org.`/`net.`-prefixed
ones, and none otherwise; in particular on the six concrete examples. -/
theorem claimC2_determine_method :
    (∀ nsp, pyStartsWith nsp "io.github." = true →
      MCPVerificationSystem.determine_verification_method nsp =
        some MCPVerificationSystem.VerificationMethod.GITHUB_OAUTH) ∧
    (∀ nsp, (pyStartsWith nsp "com." || pyStartsWith nsp "org." ||
        pyStartsWith nsp "net.") = true →
      MCPVerificationSystem.determine_verification_method nsp =
        some MCPVerificationSystem.VerificationMethod.DNS_TXT) ∧
    (∀ nsp, pyStartsWith nsp "io.github." = false →
      (pyStartsWith nsp "com." || pyStartsWith nsp "org." ||
        pyStartsWith nsp "net.") = false →
      MCPVerificationSystem.determine_verification_method nsp = none) ∧
    MCPVerificationSystem.determine_verification_method "io.github.alice" =
      some MCPVerificationSystem.VerificationMethod.GITHUB_OAUTH ∧
    MCPVerificationSystem.determine_verification_method "io.github.acme.team" =
      some MCPVerificationSystem.VerificationMethod.GITHUB_OAUTH ∧
    MCPVerificationSystem.determine_verification_method "com.example" =
      some MCPVerificationSystem.VerificationMethod.DNS_TXT ∧
    MCPVerificationSystem.determine_verification_method "org.nonprofit" =
      some MCPVerificationSystem.VerificationMethod.DNS_TXT ∧
    MCPVerificationSystem.determine_verification_method "net.example" =
      some MCPVerificationSystem.VerificationMethod.DNS_TXT ∧
    MCPVerificationSystem.determine_verification_method "not.a.valid.ns" = none := by
  refine ⟨?_, ?_, ?_, by decide, by decide, by decide, by decide, by decide, by decide⟩
  · intro nsp h
    simp [MCPVerificationSystem.determine_verification_method, h]
  · intro nsp h
    simp [MCPVerificationSystem.determine_verification_method, h,
      not_io_github_of_domain_style h]
  · intro nsp h1 h2
    simp [MCPVerificationSystem.determine_verification_method, h1, h2]

lemma gh_ok_method (net : GitHubOAuthVerifier.GitHubNet) (now : Nat) (rand nsp oauth : String) :
    ∀ r c, GitHubOAuthVerifier.verify_namespace net now rand nsp oauth = .ok (r, c) →
      r.verification_method = "github-oauth" := by
  simp only [GitHubOAuthVerifier.verify_namespace]
  split
  · intro r c h
    simp only [Except.ok.injEq, Prod.mk.injEq] at h
    rw [← h.1]
  · split
    · intro r c h
      simp at h
    · intro r c h
      split at h <;>
        (simp only [Except.ok.injEq, Prod.mk.injEq] at h; rw [← h.1])

lemma dns_method (net : DnsTxtVerifier.DnsNet) (now : Nat) (nsp tok : String) :
    (DnsTxtVerifier.verify_namespace net now nsp tok).1.verification_method = "dns-txt" := by
  simp only [DnsTxtVerifier.verify_namespace]
  split <;> try rfl
  split <;> try rfl
  split <;> rfl

lemma determine_ne_http (nsp : String) :
    MCPVerificationSystem.determine_verification_method nsp ≠
      some MCPVerificationSystem.VerificationMethod.HTTP_WELL_KNOWN := by
  simp only [MCPVerificationSystem.determine_verification_method]
  split <;> simp

/-- Claim C10: `determine_verification_method` never selects HTTP_WELL_KNOWN,
so no dispatcher result carries the method string `http-well-known`; the HTTP
verifier is reachable only by direct call. -/
theorem claimC10_http_unreachable :
    (∀ nsp, MCPVerificationSystem.determine_verification_method nsp ≠
      some MCPVerificationSystem.VerificationMethod.HTTP_WELL_KNOWN) ∧
    (∀ (ghNet : GitHubOAuthVerifier.GitHubNet) (dnsNet : DnsTxtVerifier.DnsNet)
      (httpNet : HttpWellKnownVerifier.HttpNet) (now : Nat) (rand nsp : String)
      (tok oauth : Option String),
      (MCPVerificationSystem.verify_namespace ghNet dnsNet httpNet now rand nsp
        tok oauth).1.verification_method ≠ "http-well-known") := by
  refine ⟨determine_ne_http, ?_⟩
  intro ghNet dnsNet httpNet now rand nsp tok oauth
  cases hm : MCPVerificationSystem.determine_verification_method nsp with
  | none =>
    simp [MCPVerificationSystem.verify_namespace, hm]
  | some m =>
    cases m with
    | GITHUB_OAUTH =>
      simp only [MCPVerificationSystem.verify_namespace, hm]
      split
      · simp [MCPVerificationSystem.VerificationMethod.value]
      · cases hr : GitHubOAuthVerifier.verify_namespace ghNet now rand nsp (oauth.getD "") with
        | ok p =>
          obtain ⟨r, c⟩ := p
          simp only [hr]
          rw [gh_ok_method ghNet now rand nsp (oauth.getD "") r c hr]
          simp
        | error e =>
          obtain ⟨e, c⟩ := e
          simp only [hr]
          simp [MCPVerificationSystem.VerificationMethod.value]
    | DNS_TXT =>
      simp only [MCPVerificationSystem.verify_namespace, hm]
      split
      · simp [MCPVerificationSystem.VerificationMethod.value]
      · simp only []
        rw [dns_method dnsNet now nsp (tok.getD "")]
        simp
    | HTTP_WELL_KNOWN => exact absurd hm (determine_ne_http nsp)

/-- Claim C3: the dispatcher short-circuits with zero network calls and no
delegate invocation when the method is undetermined, when GitHub verification
lacks an OAuth credential, and when DNS/HTTP verification lacks a token: the
result is the inline error record and the call count is 0. -/
theorem claimC3_short_circuit :
    (∀ (ghNet : GitHubOAuthVerifier.GitHubNet) (dnsNet : DnsTxtVerifier.DnsNet)
      (httpNet : HttpWellKnownVerifier.HttpNet) (now : Nat) (rand nsp : String)
      (tok oauth : Option String),
      MCPVerificationSystem.determine_verification_method nsp = none →
      MCPVerificationSystem.verify_namespace ghNet dnsNet httpNet now rand nsp tok oauth =
        (⟨nsp, "none", false, none, none, "", .noDetails,
          some "Unsupported namespace format"⟩, 0)) ∧
    (∀ (ghNet : GitHubOAuthVerifier.GitHubNet) (dnsNet : DnsTxtVerifier.DnsNet)
      (httpNet : HttpWellKnownVerifier.HttpNet) (now : Nat) (rand nsp : String)
      (tok : Option String),
      MCPVerificationSystem.determine_verification_method nsp =
        some MCPVerificationSystem.VerificationMethod.GITHUB_OAUTH →
      MCPVerificationSystem.verify_namespace ghNet dnsNet httpNet now rand nsp tok none =
        (⟨nsp, "github-oauth", false, none, none, "", .noDetails,
          some "OAuth token required for GitHub verification"⟩, 0)) ∧
    (∀ (ghNet : GitHubOAuthVerifier.GitHubNet) (dnsNet : DnsTxtVerifier.DnsNet)
      (httpNet : HttpWellKnownVerifier.HttpNet) (now : Nat) (rand nsp : String)
      (oauth : Option String),
      MCPVerificationSystem.determine_verification_method nsp =
        some MCPVerificationSystem.VerificationMethod.DNS_TXT →
      MCPVerificationSystem.verify_namespace ghNet dnsNet httpNet now rand nsp none oauth =
        (⟨nsp, "dns-txt", false, none, none, "", .noDetails,
          some "Verification token required for DNS verification"⟩, 0)) ∧
    (∀ (ghNet : GitHubOAuthVerifier.GitHubNet) (dnsNet : DnsTxtVerifier.DnsNet)
      (httpNet : HttpWellKnownVerifier.HttpNet) (now : Nat) (rand nsp : String)
      (oauth : Option String),
      MCPVerificationSystem.determine_verification_method nsp =
        some MCPVerificationSystem.VerificationMethod.HTTP_WELL_KNOWN →
      MCPVerificationSystem.verify_namespace ghNet dnsNet httpNet now rand nsp none oauth =
        (⟨nsp, "http-well-known", false, none, none, "", .noDetails,
          some "Verification token required for HTTP verification"⟩, 0)) := by
  refine ⟨?_, ?_, ?_, ?_⟩ <;>
    (intros ghNet dnsNet httpNet now rand nsp a b
     first
       | (simp [MCPVerificationSystem.verify_namespace, b,
           MCPVerificationSystem.VerificationMethod.value, pyTruthy])
       | skip)
  all_goals
    intro h
  all_goals
    simp [MCPVerificationSystem.verify_namespace, h,
      MCPVerificationSystem.VerificationMethod.value, pyTruthy]

lemma foldl_push_eq_map {α β : Type} (f : α → β) (l : List α) (acc : List β) :
    l.foldl (fun r x => r ++ [f x]) acc = acc ++ l.map f := by
  induction l generalizing acc with
  | nil => simp
  | cons x xs ih => simp [ih]

/-- Claim C6: `batch_verify` returns one result per input namespace, in input
order, each equal to `verify_namespace` of that namespace with its token
looked up from the mapping, independently of the other entries. -/
theorem claimC6_batch_verify :
    ∀ (ghNet : GitHubOAuthVerifier.GitHubNet) (dnsNet : DnsTxtVerifier.DnsNet)
      (httpNet : HttpWellKnownVerifier.HttpNet) (now : Nat) (rand : String)
      (namespaces : List String) (tokens : Option (List (String × String)))
      (oauth : Option String),
      MCPVerificationSystem.batch_verify ghNet dnsNet httpNet now rand namespaces
          tokens oauth =
        namespaces.map (fun nsp =>
          (MCPVerificationSystem.verify_namespace ghNet dnsNet httpNet now rand nsp
            (MCPVerificationSystem.pyDictGet tokens nsp) oauth).1) ∧
      (MCPVerificationSystem.batch_verify ghNet dnsNet httpNet now rand namespaces
          tokens oauth).length = namespaces.length ∧
      ∀ i : Nat,
        (MCPVerificationSystem.batch_verify ghNet dnsNet httpNet now rand namespaces
          tokens oauth)[i]? =
        namespaces[i]?.map (fun nsp =>
          (MCPVerificationSystem.verify_namespace ghNet dnsNet httpNet now rand nsp
            (MCPVerificationSystem.pyDictGet tokens nsp) oauth).1) := by
  intro ghNet dnsNet httpNet now rand namespaces tokens oauth
  have hmap : MCPVerificationSystem.batch_verify ghNet dnsNet httpNet now rand
      namespaces tokens oauth =
      namespaces.map (fun nsp =>
        (MCPVerificationSystem.verify_namespace ghNet dnsNet httpNet now rand nsp
          (MCPVerificationSystem.pyDictGet tokens nsp) oauth).1) := by
    unfold MCPVerificationSystem.batch_verify
    simpa using foldl_push_eq_map
      (fun nsp => (MCPVerificationSystem.verify_namespace ghNet dnsNet httpNet now rand
        nsp (MCPVerificationSystem.pyDictGet tokens nsp) oauth).1) namespaces []
  refine ⟨hmap, by simp [hmap], ?_⟩
  intro i
  rw [hmap, List.getElem?_map]

lemma afterFirstEq_append (m : List Char) (hm : '=' ∉ m) (rest : List Char) :
    afterFirstEq (m ++ '=' :: rest) = rest := by
  induction m with
  | nil => simp [afterFirstEq]
  | cons c cs ih =>
    have hc : c ≠ '=' := fun h => hm (h ▸ List.mem_cons_self c cs)
    simp only [List.cons_append, afterFirstEq, hc, if_false]
    exact ih (fun h => hm (List.mem_cons_of_mem c h))

lemma marker_no_eq : '=' ∉ DnsTxtVerifier.txtRecordMarker.data := by decide

lemma expected_record_data (tok : String) :
    (DnsTxtVerifier.txtRecordMarker ++ "=" ++ tok).data =
      DnsTxtVerifier.txtRecordMarker.data ++ '=' :: tok.data := by
  simp [String.data_append]

lemma marker_eq_data :
    (DnsTxtVerifier.txtRecordMarker ++ "=").data =
      DnsTxtVerifier.txtRecordMarker.data ++ ['='] := by
  simp [String.data_append]

lemma txt_condition_iff (r tok : String) :
    ((r == DnsTxtVerifier.txtRecordMarker ++ "=" ++ tok ||
      pyStartsWith r (DnsTxtVerifier.txtRecordMarker ++ "=")) &&
     ((if pyContainsChar r '=' then pySplitEqTail r else "") == tok)) = true ↔
    r = DnsTxtVerifier.txtRecordMarker ++ "=" ++ tok := by
  constructor
  · intro h
    rw [Bool.and_eq_true] at h
    obtain ⟨h1, h2⟩ := h
    rcases Bool.or_eq_true _ _ |>.mp h1 with hbeq | hpre
    · exact beq_iff_eq.mp hbeq
    · obtain ⟨t, ht⟩ := pyStartsWith_eq_append hpre
      rw [marker_eq_data, List.append_assoc, List.singleton_append] at ht
      have hmem : pyContainsChar r '=' = true := by
        unfold pyContainsChar
        rw [List.elem_iff, ht]
        exact List.mem_append_right _ (List.mem_cons_self _ _)
      rw [if_pos hmem] at h2
      have htail : pySplitEqTail r = String.mk t := by
        unfold pySplitEqTail
        rw [ht, afterFirstEq_append _ marker_no_eq]
      rw [htail] at h2
      have ht2 : t = tok.data := congrArg String.data (beq_iff_eq.mp h2)
      apply String.ext
      rw [ht, ht2, expected_record_data]
  · intro h
    subst h
    rw [Bool.and_eq_true]
    constructor
    · rw [Bool.or_eq_true]
      exact Or.inl (beq_self_eq_true _)
    · have hmem : pyContainsChar (DnsTxtVerifier.txtRecordMarker ++ "=" ++ tok) '=' = true := by
        unfold pyContainsChar
        rw [List.elem_iff, expected_record_data]
        exact List.mem_append_right _ (List.mem_cons_self _ _)
      rw [if_pos hmem]
      have htail : pySplitEqTail (DnsTxtVerifier.txtRecordMarker ++ "=" ++ tok) = tok := by
        unfold pySplitEqTail
        rw [expected_record_data, afterFirstEq_append _ marker_no_eq]
      rw [htail]
      exact beq_self_eq_true _

lemma txtLoop_iff_mem (tok : String) (l : List String) :
    DnsTxtVerifier.txtLoop (DnsTxtVerifier.txtRecordMarker ++ "=" ++ tok)
      (DnsTxtVerifier.txtRecordMarker ++ "=") tok l = true ↔
    (DnsTxtVerifier.txtRecordMarker ++ "=" ++ tok) ∈ l := by
  induction l with
  | nil => simp [DnsTxtVerifier.txtLoop]
  | cons r rs ih =>
    rw [DnsTxtVerifier.txtLoop]
    by_cases hc : r = DnsTxtVerifier.txtRecordMarker ++ "=" ++ tok
    · rw [if_pos ((txt_condition_iff r tok).mpr hc)]
      simp [hc]
    · rw [if_neg (fun h => hc ((txt_condition_iff r tok).mp h))]
      rw [ih]
      constructor
      · exact fun h => List.mem_cons_of_mem _ h
      · intro h
        rcases List.mem_cons.mp h with he | hm2
        · exact absurd he.symm hc
        · exact hm2

/-- Claim C4: with TXT records resolved, `verify_txt_record` succeeds exactly
when some observed record is the marker followed by `=` and the expected
token; otherwise it fails with the token-not-found error, and either way the
result carries the full observed record list. -/
theorem claimC4_verify_txt_record :
    ∀ (net : DnsTxtVerifier.DnsNet) (domain expected : String) (recs : List String),
      net domain = .answers recs →
      (((DnsTxtVerifier.verify_txt_record net domain expected).1 = true ↔
        (DnsTxtVerifier.txtRecordMarker ++ "=" ++ expected) ∈ recs.map pyStripQuotes) ∧
       (DnsTxtVerifier.verify_txt_record net domain expected).2.1 = recs.map pyStripQuotes ∧
       ((DnsTxtVerifier.verify_txt_record net domain expected).1 = true →
         (DnsTxtVerifier.verify_txt_record net domain expected).2.2 = none) ∧
       ((DnsTxtVerifier.verify_txt_record net domain expected).1 = false →
         (DnsTxtVerifier.verify_txt_record net domain expected).2.2 =
           some ("Verification TXT record not found. Expected: " ++
             (DnsTxtVerifier.txtRecordMarker ++ "=" ++ expected)))) := by
  intro net domain expected recs h
  have hg : DnsTxtVerifier.get_txt_records net domain =
      (true, recs.map pyStripQuotes, none) := by
    unfold DnsTxtVerifier.get_txt_records
    rw [h]
  by_cases hl : DnsTxtVerifier.txtLoop (DnsTxtVerifier.txtRecordMarker ++ "=" ++ expected)
      (DnsTxtVerifier.txtRecordMarker ++ "=") expected (recs.map pyStripQuotes) = true
  · have hv : DnsTxtVerifier.verify_txt_record net domain expected =
        (true, recs.map pyStripQuotes, none) := by
      simp only [DnsTxtVerifier.verify_txt_record, hg]
      simp [hl]
    rw [hv]
    exact ⟨⟨fun _ => (txtLoop_iff_mem expected _).mp hl, fun _ => rfl⟩, rfl,
      fun _ => rfl, fun hf => by simp at hf⟩
  · have hv : DnsTxtVerifier.verify_txt_record net domain expected =
        (false, recs.map pyStripQuotes,
          some ("Verification TXT record not found. Expected: " ++
            (DnsTxtVerifier.txtRecordMarker ++ "=" ++ expected))) := by
      simp only [DnsTxtVerifier.verify_txt_record, hg]
      simp [hl]
    rw [hv]
    refine ⟨⟨fun hf => by simp at hf, fun hmem => ?_⟩, rfl,
      fun hf => by simp at hf, fun _ => rfl⟩
    exact absurd ((txtLoop_iff_mem expected _).mpr hmem) hl


/-- Witness for claim C4 at the worked example of the spec. -/
theorem claimC4_witness :
    (((DnsTxtVerifier.verify_txt_record c4net "example" "abc123").1 = true ↔
      (DnsTxtVerifier.txtRecordMarker ++ "=" ++ "abc123") ∈
        (["mcp-registry-verification=abc123", "other-record"].map pyStripQuotes)) ∧
     (DnsTxtVerifier.verify_txt_record c4net "example" "abc123").2.1 =
       ["mcp-registry-verification=abc123", "other-record"].map pyStripQuotes ∧
     ((DnsTxtVerifier.verify_txt_record c4net "example" "abc123").1 = true →
       (DnsTxtVerifier.verify_txt_record c4net "example" "abc123").2.2 = none) ∧
     ((DnsTxtVerifier.verify_txt_record c4net "example" "abc123").1 = false →
       (DnsTxtVerifier.verify_txt_record c4net "example" "abc123").2.2 =
         some ("Verification TXT record not found. Expected: " ++
           (DnsTxtVerifier.txtRecordMarker ++ "=" ++ "abc123")))) :=
  claimC4_verify_txt_record c4net "example" "abc123"
    ["mcp-registry-verification=abc123", "other-record"] rfl

lemma jsonFieldEqStr_iff (fields : List (String × HttpWellKnownVerifier.JValue))
    (k expected : String) :
    HttpWellKnownVerifier.jsonFieldEqStr fields k expected = true ↔
      fields.lookup k = some (.jstr expected) := by
  unfold HttpWellKnownVerifier.jsonFieldEqStr
  cases h : fields.lookup k with
  | none => simp
  | some v => cases v <;> simp [beq_iff_eq]

/-- Claim C5: the HTTP well-known verifier tries HTTPS first and falls back
to HTTP on any failed attempt (exception or non-200); only a 200 response
counts as fetched, both failing yields the endpoint-unreachable error; a
JSON-object body matches through the four recognized token fields, and a
plain-text body through trimmed equality. -/
theorem claimC5_http_fetch_and_token :
    (∀ (net : HttpWellKnownVerifier.HttpNet) (url : String),
      HttpWellKnownVerifier.tryFetchUrl net url = none ↔ attemptFailed (net url)) ∧
    (∀ (net : HttpWellKnownVerifier.HttpNet) (domain : String)
      (d : HttpWellKnownVerifier.FetchData),
      HttpWellKnownVerifier.tryFetchUrl net
        (HttpWellKnownVerifier.build_endpoint_url domain true) = some d →
      HttpWellKnownVerifier.fetch_verification_endpoint net domain = ((some d, none), 1)) ∧
    (∀ (net : HttpWellKnownVerifier.HttpNet) (domain : String)
      (d : HttpWellKnownVerifier.FetchData),
      HttpWellKnownVerifier.tryFetchUrl net
        (HttpWellKnownVerifier.build_endpoint_url domain true) = none →
      HttpWellKnownVerifier.tryFetchUrl net
        (HttpWellKnownVerifier.build_endpoint_url domain false) = some d →
      HttpWellKnownVerifier.fetch_verification_endpoint net domain = ((some d, none), 2)) ∧
    (∀ (net : HttpWellKnownVerifier.HttpNet) (domain : String),
      HttpWellKnownVerifier.tryFetchUrl net
        (HttpWellKnownVerifier.build_endpoint_url domain true) = none →
      HttpWellKnownVerifier.tryFetchUrl net
        (HttpWellKnownVerifier.build_endpoint_url domain false) = none →
      HttpWellKnownVerifier.fetch_verification_endpoint net domain =
        ((none, some "Unable to fetch verification endpoint from either HTTP or HTTPS"), 2)) ∧
    (∀ (u : String) (st : Nat) (ct : String)
      (fields : List (String × HttpWellKnownVerifier.JValue)) (expected : String),
      HttpWellKnownVerifier.verify_token_in_response ⟨u, st, .ofJson (.jobj fields), ct⟩
          expected = true ↔
        (fields.lookup "token" = some (.jstr expected) ∨
         fields.lookup "verification_token" = some (.jstr expected) ∨
         fields.lookup "mcp_registry_token" = some (.jstr expected) ∨
         fields.lookup "auth_token" = some (.jstr expected))) ∧
    (∀ (u : String) (st : Nat) (ct s expected : String),
      HttpWellKnownVerifier.verify_token_in_response ⟨u, st, .ofText s, ct⟩ expected = true ↔
        pyStrip s = expected) := by
  refine ⟨?_, ?_, ?_, ?_, ?_, ?_⟩
  · intro net url
    unfold HttpWellKnownVerifier.tryFetchUrl attemptFailed
    cases net url with
    | resp st ct body =>
      by_cases hst : st = 200
      · subst hst
        simp
      · simp [hst]
    | timeoutE => simp
    | connectionE => simp
    | requestE m => simp
  · intro net domain d h
    simp only [HttpWellKnownVerifier.fetch_verification_endpoint, h]
  · intro net domain d h1 h2
    simp only [HttpWellKnownVerifier.fetch_verification_endpoint, h1, h2]
  · intro net domain h1 h2
    simp only [HttpWellKnownVerifier.fetch_verification_endpoint, h1, h2]
  · intro u st ct fields expected
    unfold HttpWellKnownVerifier.verify_token_in_response
    simp only [Bool.or_eq_true, jsonFieldEqStr_iff]
    tauto
  · intro u st ct s expected
    unfold HttpWellKnownVerifier.verify_token_in_response
    simp [beq_iff_eq]

lemma gh_user_count (net : GitHubOAuthVerifier.GitHubNet) (username : String) :
    (GitHubOAuthVerifier.verify_github_user net username).2 = 1 := by
  unfold GitHubOAuthVerifier.verify_github_user
  cases net.userReply with
  | exn m => rfl
  | resp st u =>
    by_cases h1 : st ≠ 200 <;> by_cases h2 : u.login ≠ some username <;>
      by_cases h3 : u.active.getD true = false <;> simp [h1, h2, h3]

lemma gh_org_count (net : GitHubOAuthVerifier.GitHubNet) (org : String) :
    1 ≤ ghCallCount (GitHubOAuthVerifier.verify_github_organization net org) ∧
    ghCallCount (GitHubOAuthVerifier.verify_github_organization net org) ≤ 3 := by
  cases hu : net.userReply with
  | exn m =>
    norm_num [GitHubOAuthVerifier.verify_github_organization, hu, ghCallCount]
  | resp st u =>
    by_cases hst : st = 200
    · subst hst
      cases hl : u.login with
      | none =>
        norm_num [GitHubOAuthVerifier.verify_github_organization, hu, hl, ghCallCount]
      | some login =>
        cases hm : net.memberReply org login with
        | exn m =>
          norm_num [GitHubOAuthVerifier.verify_github_organization, hu, hl, hm,
            GitHubOAuthVerifier.gh_member_check, ghCallCount]
        | resp st2 b =>
          by_cases h204 : st2 = 204
          · subst h204
            cases ho : net.orgReply org with
            | exn m =>
              norm_num [GitHubOAuthVerifier.verify_github_organization, hu, hl, hm, ho,
                GitHubOAuthVerifier.gh_member_check, ghCallCount]
            | resp st3 b2 =>
              by_cases h200 : st3 = 200 <;>
                norm_num [GitHubOAuthVerifier.verify_github_organization, hu, hl, hm, ho,
                  h200, GitHubOAuthVerifier.gh_member_check, ghCallCount]
          · norm_num [GitHubOAuthVerifier.verify_github_organization, hu, hl, hm, h204,
              GitHubOAuthVerifier.gh_member_check, ghCallCount]
    · norm_num [GitHubOAuthVerifier.verify_github_organization, hu, hst, ghCallCount]

lemma gh_namespace_count (net : GitHubOAuthVerifier.GitHubNet) (now : Nat)
    (rand nsp oauth : String) (h : pyStartsWith nsp "io.github." = true) :
    ghCallCount (GitHubOAuthVerifier.verify_namespace net now rand nsp oauth) =
      (if pyContainsChar (pyDrop 10 nsp) '.' = true then
        ghCallCount (GitHubOAuthVerifier.verify_github_organization net
          (GitHubOAuthVerifier.orgNameOf (pyDrop 10 nsp)))
      else (GitHubOAuthVerifier.verify_github_user net (pyDrop 10 nsp)).2) := by
  simp only [GitHubOAuthVerifier.verify_namespace, h, Bool.true_eq_false, if_false]
  by_cases hdot : pyContainsChar (pyDrop 10 nsp) '.' = true
  · simp only [if_pos hdot]
    cases hr : GitHubOAuthVerifier.verify_github_organization net
        (GitHubOAuthVerifier.orgNameOf (pyDrop 10 nsp)) with
    | error e => simp [hr, ghCallCount]
    | ok p =>
      obtain ⟨⟨success, data⟩, c⟩ := p
      simp only [hr]
      split <;> simp [ghCallCount]
  · simp only [if_neg hdot]
    rcases hu : GitHubOAuthVerifier.verify_github_user net (pyDrop 10 nsp) with ⟨⟨success, data⟩, c⟩
    simp only [hu]
    split <;> simp [ghCallCount, hu]

/-- Claim C8 (amended): an accepted `io.github.*` namespace issues one to
three outbound calls — exactly one on the user path, one to three on the
organization path; the embedding is a pure function, so there is no local
persistence. -/
theorem claimC8_amended :
    ∀ (net : GitHubOAuthVerifier.GitHubNet) (now : Nat) (rand nsp oauth : String),
      pyStartsWith nsp "io.github." = true →
      (1 ≤ ghCallCount (GitHubOAuthVerifier.verify_namespace net now rand nsp oauth) ∧
       ghCallCount (GitHubOAuthVerifier.verify_namespace net now rand nsp oauth) ≤ 3 ∧
       (pyContainsChar (pyDrop 10 nsp) '.' = false →
         ghCallCount (GitHubOAuthVerifier.verify_namespace net now rand nsp oauth) = 1)) := by
  intro net now rand nsp oauth h
  rw [gh_namespace_count net now rand nsp oauth h]
  by_cases hdot : pyContainsChar (pyDrop 10 nsp) '.' = true
  · rw [if_pos hdot]
    exact ⟨(gh_org_count _ _).1, (gh_org_count _ _).2,
      fun hf => absurd hdot (by simp [hf])⟩
  · rw [if_neg hdot, gh_user_count]
    exact ⟨le_refl 1, by norm_num, fun _ => rfl⟩

/-- Claim C8 counterexample: on the user path exactly one call is issued,
not two or three. -/
theorem claimC8_counterexample :
    ghCallCount (GitHubOAuthVerifier.verify_namespace c8net 0 "00" "io.github.alice" "tok") = 1 := rfl

/-- Witness for claim C8 at a concrete user-path input. -/
theorem claimC8_witness :
    1 ≤ ghCallCount (GitHubOAuthVerifier.verify_namespace c8net 0 "00" "io.github.alice" "tok") ∧
    ghCallCount (GitHubOAuthVerifier.verify_namespace c8net 0 "00" "io.github.alice" "tok") ≤ 3 ∧
    (pyContainsChar (pyDrop 10 "io.github.alice") '.' = false →
      ghCallCount (GitHubOAuthVerifier.verify_namespace c8net 0 "00" "io.github.alice" "tok") = 1) :=
  claimC8_amended c8net 0 "00" "io.github.alice" "tok" (by decide)

/-- Claim C7 counterexample: on the organization path the verifier succeeds
(with three calls and no error) even though the authenticated account is
flagged inactive, so the account-inactive rule of the user path is not
applied. -/
theorem claimC7_counterexample :
    (GitHubOAuthVerifier.verify_namespace c7net 0 "00" "io.github.acme.team" "tok").map
      (fun p => (p.1.success, p.1.error_message, p.2)) = .ok (true, none, 3) := rfl

/-- Claim C7 (amended): the organization path resolves the authenticated
user first and fails with the request-failed or API error exactly as the user
path does on a non-success status, but it performs no username-match and no
account-active check: with any 200 user response carrying a login it proceeds
directly to the membership and organization-metadata phase. -/
theorem claimC7_amended :
    (∀ (net : GitHubOAuthVerifier.GitHubNet) (org m : String),
      net.userReply = .exn m →
      GitHubOAuthVerifier.verify_github_organization net org =
        .ok ((false, .errData ("Request failed: " ++ m)), 1)) ∧
    (∀ (net : GitHubOAuthVerifier.GitHubNet) (org : String) (st : Nat)
      (u : GitHubOAuthVerifier.GhUser),
      net.userReply = .resp st u → st ≠ 200 →
      GitHubOAuthVerifier.verify_github_organization net org =
        .ok ((false, .errData ("GitHub API error: " ++ toString st)), 1)) ∧
    (∀ (net : GitHubOAuthVerifier.GitHubNet) (org login : String)
      (u : GitHubOAuthVerifier.GhUser),
      net.userReply = .resp 200 u → u.login = some login →
      GitHubOAuthVerifier.verify_github_organization net org =
        .ok (GitHubOAuthVerifier.gh_member_check net org login u)) := by
  refine ⟨?_, ?_, ?_⟩
  · intro net org m h
    simp [GitHubOAuthVerifier.verify_github_organization, h]
  · intro net org st u h hst
    simp [GitHubOAuthVerifier.verify_github_organization, h, hst]
  · intro net org login u h hl
    simp [GitHubOAuthVerifier.verify_github_organization, h, hl]

lemma digestBytes_length (r : Sha256.Regs) : (Sha256.digestBytes r).length = 32 := by
  simp [Sha256.digestBytes, Sha256.wordBytes]

lemma flatMap_byteHex_length (bs : List Nat) :
    (bs.flatMap Sha256.byteHex).length = 2 * bs.length := by
  induction bs with
  | nil => simp
  | cons b t ih => simp [Sha256.byteHex, ih]; ring

lemma hexDigit_mem (n : Nat) : Sha256.hexDigit n ∈ Sha256.hexDigits := by
  unfold Sha256.hexDigit
  have h : n % 16 < Sha256.hexDigits.length := Nat.mod_lt _ (by norm_num)
  rw [List.getD_eq_getElem?_getD, List.getElem?_eq_getElem h]
  exact List.getElem_mem h

lemma sha256Hex_shape (s : String) :
    (Sha256.sha256HexOfString s).length = 64 ∧
    ∀ c ∈ (Sha256.sha256HexOfString s).data, c ∈ Sha256.hexDigits := by
  unfold Sha256.sha256HexOfString Sha256.hexOfBytes
  constructor
  · show (List.flatMap _ _).length = 64
    rw [flatMap_byteHex_length, digestBytes_length]
  · intro c hc
    obtain ⟨b, _, hcb⟩ := List.mem_flatMap.mp hc
    simp only [Sha256.byteHex, List.mem_cons, List.not_mem_nil, or_false] at hcb
    rcases hcb with h | h <;> exact h ▸ hexDigit_mem _

/-- Claim C9 (amended): generated verification tokens are exactly 64
lowercase hexadecimal characters (for both the DNS and the GitHub token
generators). -/
theorem claimC9_amended :
    ∀ (subject : String) (now : Nat) (rand : String),
      ((DnsTxtVerifier.generate_verification_token subject now rand).length = 64 ∧
       ∀ c ∈ (DnsTxtVerifier.generate_verification_token subject now rand).data,
         c ∈ Sha256.hexDigits) ∧
      ((GitHubOAuthVerifier.generate_verification_token subject now rand).length = 64 ∧
       ∀ c ∈ (GitHubOAuthVerifier.generate_verification_token subject now rand).data,
         c ∈ Sha256.hexDigits) := by
  intro subject now rand
  exact ⟨sha256Hex_shape _, sha256Hex_shape _⟩

lemma hex_getD_indexOf :
    ∀ c ∈ Sha256.hexDigits, Sha256.hexDigits.getD (Sha256.hexDigits.indexOf c % 16) 'z' = c := by
  decide

lemma tokenAtTime_shape (t : Nat) :
    (tokenAtTime t).data.length = 64 ∧ ∀ c ∈ (tokenAtTime t).data, c ∈ Sha256.hexDigits :=
  sha256Hex_shape _

lemma recon_tokenCode (t : Nat) : reconFromCode (tokenCode t) = (tokenAtTime t).data := by
  obtain ⟨hlen, hmem⟩ := tokenAtTime_shape t
  apply List.ext_getElem
  · simp [reconFromCode, hlen]
  · intro i hi1 hi2
    have hi64 : i < 64 := by simpa [reconFromCode] using hi1
    simp only [reconFromCode] at hi1 ⊢
    rw [List.getElem_map, List.getElem_finRange]
    show Sha256.hexDigits.getD
      (Sha256.hexDigits.indexOf ((tokenAtTime t).data.getD i 'z') % 16) 'z' = _
    have hgd : (tokenAtTime t).data.getD i 'z' = (tokenAtTime t).data[i] := by
      rw [List.getD_eq_getElem?_getD, List.getElem?_eq_getElem hi2]
      rfl
    rw [hgd]
    exact hex_getD_indexOf _ (hmem _ (List.getElem_mem hi2))

/-- Claim C9 counterexample: token distinctness across instants cannot hold
universally — the tokens of a fixed subject range over the finitely many
64-character hex strings while the instants are unbounded, so two distinct
instants share a token. -/
theorem claimC9_counterexample :
    ¬ (∀ (subject : String) (t₁ : Nat) (r₁ : String) (t₂ : Nat) (r₂ : String),
        (t₁, r₁) ≠ (t₂, r₂) →
        DnsTxtVerifier.generate_verification_token subject t₁ r₁ ≠
          DnsTxtVerifier.generate_verification_token subject t₂ r₂) := by
  intro hcl
  obtain ⟨t₁, t₂, hne, heq⟩ := Finite.exists_ne_map_eq_of_infinite tokenCode
  have htok : tokenAtTime t₁ = tokenAtTime t₂ := by
    apply String.ext
    rw [← recon_tokenCode t₁, ← recon_tokenCode t₂, heq]
  exact hcl "com.example" t₁ "deadbeef" t₂ "deadbeef"
    (by simp [hne]) htok


lemma msg_pre_ne (a b : String) (h : a ≠ "") : a ++ b ≠ "" := string_append_ne_empty a b h

lemma dns_get_fail (net : DnsTxtVerifier.DnsNet) (domain : String)
    (h : (DnsTxtVerifier.get_txt_records net domain).1 = false) :
    ∃ m, (DnsTxtVerifier.get_txt_records net domain).2.2 = some m ∧ m ≠ "" := by
  unfold DnsTxtVerifier.get_txt_records at h ⊢
  cases hnd : net domain with
  | answers rs => rw [hnd] at h; exact Bool.noConfusion h
  | nxdomain =>
    exact ⟨_, rfl, msg_pre_ne _ _ (msg_pre_ne "Domain " _ (by decide))⟩
  | noAnswer =>
    exact ⟨_, rfl, msg_pre_ne "No TXT records found for " _ (by decide)⟩
  | timeoutErr =>
    exact ⟨_, rfl, msg_pre_ne "DNS query timeout for " _ (by decide)⟩
  | otherErr m =>
    exact ⟨_, rfl, msg_pre_ne "DNS query failed: " _ (by decide)⟩

lemma dns_vtxt_fail (net : DnsTxtVerifier.DnsNet) (domain tok : String)
    (h : (DnsTxtVerifier.verify_txt_record net domain tok).1 = false) :
    ∃ m, (DnsTxtVerifier.verify_txt_record net domain tok).2.2 = some m ∧ m ≠ "" := by
  unfold DnsTxtVerifier.verify_txt_record at h ⊢
  by_cases hg : (DnsTxtVerifier.get_txt_records net domain).1 = false
  · rw [if_pos hg] at h ⊢
    exact dns_get_fail net domain hg
  · rw [if_neg hg] at h ⊢
    by_cases hl : DnsTxtVerifier.txtLoop (DnsTxtVerifier.txtRecordMarker ++ "=" ++ tok)
        (DnsTxtVerifier.txtRecordMarker ++ "=") tok
        (DnsTxtVerifier.get_txt_records net domain).2.1 = true
    · rw [if_pos hl] at h
      exact Bool.noConfusion h
    · rw [if_neg hl]
      exact ⟨_, rfl, msg_pre_ne "Verification TXT record not found. Expected: " _ (by decide)⟩

lemma dns_inv (net : DnsTxtVerifier.DnsNet) (now : Nat) (nsp tok : String) :
    ResultTimeInvariant DnsTxtVerifier.validity_period
      (DnsTxtVerifier.verify_namespace net now nsp tok).1.success
      (DnsTxtVerifier.verify_namespace net now nsp tok).1.verified_at
      (DnsTxtVerifier.verify_namespace net now nsp tok).1.expires_at
      (DnsTxtVerifier.verify_namespace net now nsp tok).1.error_message := by
  cases hd : DnsTxtVerifier.extract_domain_from_namespace nsp with
  | none =>
    simp only [DnsTxtVerifier.verify_namespace, hd]
    exact ⟨fun h => Bool.noConfusion h, fun _ => ⟨rfl, rfl, _, rfl, by decide⟩⟩
  | some domain =>
    simp only [DnsTxtVerifier.verify_namespace, hd]
    by_cases hg : (DnsTxtVerifier.get_txt_records net domain).1 = false
    · rw [if_pos hg]
      refine ⟨fun h => Bool.noConfusion h, fun _ => ⟨rfl, rfl, ?_⟩⟩
      obtain ⟨m, hm, hne⟩ := dns_get_fail net domain hg
      exact ⟨m, hm, hne⟩
    · rw [if_neg hg]
      by_cases ht : (DnsTxtVerifier.verify_txt_record net domain tok).1 = false
      · rw [if_pos ht]
        refine ⟨fun h => Bool.noConfusion h, fun _ => ⟨rfl, rfl, ?_⟩⟩
        obtain ⟨m, hm, hne⟩ := dns_vtxt_fail net domain tok ht
        exact ⟨m, hm, hne⟩
      · rw [if_neg ht]
        exact ⟨fun _ => ⟨rfl, now, rfl, rfl⟩, fun h => Bool.noConfusion h⟩

lemma getErrorD_user (net : GitHubOAuthVerifier.GitHubNet) (username : String) :
    GitHubOAuthVerifier.getErrorD (GitHubOAuthVerifier.verify_github_user net username).1.2 ≠ "" := by
  cases hu : net.userReply with
  | exn m =>
    simp only [GitHubOAuthVerifier.verify_github_user, hu]
    exact msg_pre_ne "Request failed: " _ (by decide)
  | resp st u =>
    by_cases h1 : st = 200
    · by_cases h2 : u.login = some username
      · by_cases h3 : u.active.getD true = false
        · simp only [GitHubOAuthVerifier.verify_github_user, hu, h1, h2, h3]
          simp [GitHubOAuthVerifier.getErrorD]
        · simp only [GitHubOAuthVerifier.verify_github_user, hu, h1, h2, h3]
          simp [GitHubOAuthVerifier.getErrorD, h3]
      · simp only [GitHubOAuthVerifier.verify_github_user, hu, h1]
        simp [GitHubOAuthVerifier.getErrorD, h2]
    · simp only [GitHubOAuthVerifier.verify_github_user, hu]
      simp [GitHubOAuthVerifier.getErrorD, h1]
      exact msg_pre_ne "GitHub API error: " _ (by decide)

lemma getErrorD_member (net : GitHubOAuthVerifier.GitHubNet) (org login : String)
    (u : GitHubOAuthVerifier.GhUser) :
    GitHubOAuthVerifier.getErrorD
      (GitHubOAuthVerifier.gh_member_check net org login u).1.2 ≠ "" := by
  cases hm : net.memberReply org login with
  | exn m =>
    simp only [GitHubOAuthVerifier.gh_member_check, hm]
    exact msg_pre_ne "Request failed: " _ (by decide)
  | resp st b =>
    by_cases h1 : st = 204
    · cases ho : net.orgReply org with
      | exn m2 =>
        simp only [GitHubOAuthVerifier.gh_member_check, hm, h1, ho]
        simp [GitHubOAuthVerifier.getErrorD]
        exact msg_pre_ne "Request failed: " _ (by decide)
      | resp st2 b2 =>
        by_cases h2 : st2 = 200
        · simp only [GitHubOAuthVerifier.gh_member_check, hm, h1, ho, h2]
          simp [GitHubOAuthVerifier.getErrorD]
        · simp only [GitHubOAuthVerifier.gh_member_check, hm, h1, ho]
          simp [GitHubOAuthVerifier.getErrorD, h2]
          exact msg_pre_ne "Organization not found: " _ (by decide)
    · simp only [GitHubOAuthVerifier.gh_member_check, hm]
      simp [GitHubOAuthVerifier.getErrorD, h1]

lemma getErrorD_org (net : GitHubOAuthVerifier.GitHubNet) (org : String) :
    ∀ (b : Bool) (data : GitHubOAuthVerifier.GhData) (c : Nat),
      GitHubOAuthVerifier.verify_github_organization net org = .ok ((b, data), c) →
      GitHubOAuthVerifier.getErrorD data ≠ "" := by
  intro b data c h
  cases hu : net.userReply with
  | exn m =>
    simp only [GitHubOAuthVerifier.verify_github_organization, hu, Except.ok.injEq,
      Prod.mk.injEq] at h
    rw [← h.1.2]
    exact msg_pre_ne "Request failed: " _ (by decide)
  | resp st u =>
    by_cases hst : st = 200
    · cases hl : u.login with
      | none =>
        simp [GitHubOAuthVerifier.verify_github_organization, hu, hst, hl] at h
      | some login =>
        simp only [GitHubOAuthVerifier.verify_github_organization, hu, hst, hl] at h
        simp only [if_neg (by simp : ¬(200 : Nat) ≠ 200)] at h
        simp only [Except.ok.injEq] at h
        have hd : data = (GitHubOAuthVerifier.gh_member_check net org login u).1.2 := by
          rw [h]
        rw [hd]
        exact getErrorD_member net org login u
    · simp only [GitHubOAuthVerifier.verify_github_organization, hu] at h
      rw [if_pos hst] at h
      simp only [Except.ok.injEq, Prod.mk.injEq] at h
      rw [← h.1.2]
      exact msg_pre_ne "GitHub API error: " _ (by decide)

lemma gh_fail_record_inv (nsp vtok : String)
    (data : GitHubOAuthVerifier.GhData)
    (hd : GitHubOAuthVerifier.getErrorD data ≠ "") :
    ResultTimeInvariant GitHubOAuthVerifier.validity_period
      (GitHubOAuthVerifier.VerificationResult.mk false nsp "github-oauth" none none vtok
        (some (GitHubOAuthVerifier.getErrorD data))).success
      (GitHubOAuthVerifier.VerificationResult.mk false nsp "github-oauth" none none vtok
        (some (GitHubOAuthVerifier.getErrorD data))).verified_at
      (GitHubOAuthVerifier.VerificationResult.mk false nsp "github-oauth" none none vtok
        (some (GitHubOAuthVerifier.getErrorD data))).expires_at
      (GitHubOAuthVerifier.VerificationResult.mk false nsp "github-oauth" none none vtok
        (some (GitHubOAuthVerifier.getErrorD data))).error_message :=
  ⟨fun h => Bool.noConfusion h, fun _ => ⟨rfl, rfl, _, rfl, hd⟩⟩

lemma gh_inv (net : GitHubOAuthVerifier.GitHubNet) (now : Nat) (rand nsp oauth : String) :
    GhExceptInvariant (GitHubOAuthVerifier.verify_namespace net now rand nsp oauth) := by
  intro r c h
  by_cases hp : pyStartsWith nsp "io.github." = false
  · simp only [GitHubOAuthVerifier.verify_namespace, hp, if_true, Except.ok.injEq,
      Prod.mk.injEq] at h
    rw [← h.1]
    exact ⟨fun hh => Bool.noConfusion hh, fun _ => ⟨rfl, rfl, _, rfl, by decide⟩⟩
  · simp only [GitHubOAuthVerifier.verify_namespace] at h
    rw [if_neg hp] at h
    by_cases hdot : pyContainsChar (pyDrop 10 nsp) '.' = true
    · rw [if_pos hdot] at h
      cases ho : GitHubOAuthVerifier.verify_github_organization net
          (GitHubOAuthVerifier.orgNameOf (pyDrop 10 nsp)) with
      | error e => rw [ho] at h; exact Except.noConfusion h
      | ok p =>
        rcases p with ⟨⟨b, data⟩, c2⟩
        rw [ho] at h
        dsimp only at h
        by_cases hb : b = false
        · subst hb
          rw [if_pos rfl] at h
          simp only [Except.ok.injEq, Prod.mk.injEq] at h
          rw [← h.1]
          exact gh_fail_record_inv nsp _ data (getErrorD_org net _ _ data c2 ho)
        · rw [if_neg hb] at h
          simp only [Except.ok.injEq, Prod.mk.injEq] at h
          rw [← h.1]
          exact ⟨fun _ => ⟨rfl, now, rfl, rfl⟩, fun hh => Bool.noConfusion hh⟩
    · rw [if_neg hdot] at h
      rcases hu : GitHubOAuthVerifier.verify_github_user net (pyDrop 10 nsp)
        with ⟨⟨b, data⟩, c2⟩
      rw [hu] at h
      dsimp only at h
      by_cases hb : b = false
      · subst hb
        rw [if_pos rfl] at h
        simp only [Except.ok.injEq, Prod.mk.injEq] at h
        rw [← h.1]
        have hd : GitHubOAuthVerifier.getErrorD data ≠ "" := by
          have hx := getErrorD_user net (pyDrop 10 nsp)
          rw [hu] at hx
          exact hx
        exact gh_fail_record_inv nsp _ data hd
      · rw [if_neg hb] at h
        simp only [Except.ok.injEq, Prod.mk.injEq] at h
        rw [← h.1]
        exact ⟨fun _ => ⟨rfl, now, rfl, rfl⟩, fun hh => Bool.noConfusion hh⟩

lemma http_fetch_fail (net : HttpWellKnownVerifier.HttpNet) (domain : String)
    (h : (HttpWellKnownVerifier.fetch_verification_endpoint net domain).1.1 = none) :
    ∃ m, (HttpWellKnownVerifier.fetch_verification_endpoint net domain).1.2 = some m ∧
      m ≠ "" := by
  unfold HttpWellKnownVerifier.fetch_verification_endpoint at h ⊢
  cases h1 : HttpWellKnownVerifier.tryFetchUrl net
      (HttpWellKnownVerifier.build_endpoint_url domain true) with
  | some d => rw [h1] at h; exact Option.noConfusion h
  | none =>
    rw [h1] at h
    cases h2 : HttpWellKnownVerifier.tryFetchUrl net
        (HttpWellKnownVerifier.build_endpoint_url domain false) with
    | some d => rw [h2] at h; exact Option.noConfusion h
    | none => exact ⟨_, rfl, by decide⟩

lemma http_inv (net : HttpWellKnownVerifier.HttpNet) (now : Nat) (nsp tok : String) :
    ResultTimeInvariant HttpWellKnownVerifier.validity_period
      (HttpWellKnownVerifier.verify_namespace net now nsp tok).1.success
      (HttpWellKnownVerifier.verify_namespace net now nsp tok).1.verified_at
      (HttpWellKnownVerifier.verify_namespace net now nsp tok).1.expires_at
      (HttpWellKnownVerifier.verify_namespace net now nsp tok).1.error_message := by
  cases hd : HttpWellKnownVerifier.extract_domain_from_namespace nsp with
  | none =>
    simp only [HttpWellKnownVerifier.verify_namespace, hd]
    exact ⟨fun h => Bool.noConfusion h, fun _ => ⟨rfl, rfl, _, rfl, by decide⟩⟩
  | some domain =>
    simp only [HttpWellKnownVerifier.verify_namespace, hd]
    cases hf : (HttpWellKnownVerifier.fetch_verification_endpoint net domain).1.1 with
    | none =>
      refine ⟨fun h => Bool.noConfusion h, fun _ => ⟨rfl, rfl, ?_⟩⟩
      obtain ⟨m, hm, hne⟩ := http_fetch_fail net domain hf
      exact ⟨m, hm, hne⟩
    | some d =>
      dsimp only
      by_cases hv : HttpWellKnownVerifier.verify_token_in_response d tok = false
      · rw [if_pos hv]
        exact ⟨fun h => Bool.noConfusion h,
          fun _ => ⟨rfl, rfl, _, rfl,
            msg_pre_ne "Verification token not found in response from " _ (by decide)⟩⟩
      · rw [if_neg hv]
        exact ⟨fun _ => ⟨rfl, now, rfl, rfl⟩, fun h => Bool.noConfusion h⟩

lemma dispatch_inv (ghNet : GitHubOAuthVerifier.GitHubNet)
    (dnsNet : DnsTxtVerifier.DnsNet) (httpNet : HttpWellKnownVerifier.HttpNet)
    (now : Nat) (rand nsp : String) (tok oauth : Option String) :
    ResultTimeInvariant (365 * 86400)
      (MCPVerificationSystem.verify_namespace ghNet dnsNet httpNet now rand nsp
        tok oauth).1.success
      (MCPVerificationSystem.verify_namespace ghNet dnsNet httpNet now rand nsp
        tok oauth).1.verified_at
      (MCPVerificationSystem.verify_namespace ghNet dnsNet httpNet now rand nsp
        tok oauth).1.expires_at
      (MCPVerificationSystem.verify_namespace ghNet dnsNet httpNet now rand nsp
        tok oauth).1.error_message := by
  cases hm : MCPVerificationSystem.determine_verification_method nsp with
  | none =>
    simp only [MCPVerificationSystem.verify_namespace, hm]
    exact ⟨fun h => Bool.noConfusion h, fun _ => ⟨rfl, rfl, _, rfl, by decide⟩⟩
  | some m =>
    cases m with
    | GITHUB_OAUTH =>
      simp only [MCPVerificationSystem.verify_namespace, hm]
      by_cases hoa : pyTruthy oauth = false
      · rw [if_pos hoa]
        exact ⟨fun h => Bool.noConfusion h, fun _ => ⟨rfl, rfl, _, rfl, by decide⟩⟩
      · rw [if_neg hoa]
        cases hr : GitHubOAuthVerifier.verify_namespace ghNet now rand nsp
            (oauth.getD "") with
        | ok p =>
          rcases p with ⟨r0, c0⟩
          dsimp only
          exact gh_inv ghNet now rand nsp (oauth.getD "") r0 c0 hr
        | error e =>
          rcases e with ⟨e, c0⟩
          dsimp only
          exact ⟨fun h => Bool.noConfusion h,
            fun _ => ⟨rfl, rfl, _, rfl,
              msg_pre_ne "Verification system error: " _ (by decide)⟩⟩
    | DNS_TXT =>
      simp only [MCPVerificationSystem.verify_namespace, hm]
      by_cases htk : pyTruthy tok = false
      · rw [if_pos htk]
        exact ⟨fun h => Bool.noConfusion h, fun _ => ⟨rfl, rfl, _, rfl, by decide⟩⟩
      · rw [if_neg htk]
        exact dns_inv dnsNet now nsp (tok.getD "")
    | HTTP_WELL_KNOWN =>
      simp only [MCPVerificationSystem.verify_namespace, hm]
      by_cases htk : pyTruthy tok = false
      · rw [if_pos htk]
        exact ⟨fun h => Bool.noConfusion h, fun _ => ⟨rfl, rfl, _, rfl, by decide⟩⟩
      · rw [if_neg htk]
        exact http_inv httpNet now nsp (tok.getD "")

/-- Claim C1: every result of the DNS, GitHub and HTTP verifiers and of the
dispatcher satisfies the success/failure invariant: success carries no error
message and expires exactly one 365-day validity period after verification;
failure carries empty timestamps and a non-empty error message. -/
theorem claimC1_result_invariant :
    ∀ (ghNet : GitHubOAuthVerifier.GitHubNet) (dnsNet : DnsTxtVerifier.DnsNet)
      (httpNet : HttpWellKnownVerifier.HttpNet) (now : Nat) (rand nsp dtok htok oauthS : String)
      (tok oauth : Option String),
      ResultTimeInvariant DnsTxtVerifier.validity_period
        (DnsTxtVerifier.verify_namespace dnsNet now nsp dtok).1.success
        (DnsTxtVerifier.verify_namespace dnsNet now nsp dtok).1.verified_at
        (DnsTxtVerifier.verify_namespace dnsNet now nsp dtok).1.expires_at
        (DnsTxtVerifier.verify_namespace dnsNet now nsp dtok).1.error_message ∧
      GhExceptInvariant (GitHubOAuthVerifier.verify_namespace ghNet now rand nsp oauthS) ∧
      ResultTimeInvariant HttpWellKnownVerifier.validity_period
        (HttpWellKnownVerifier.verify_namespace httpNet now nsp htok).1.success
        (HttpWellKnownVerifier.verify_namespace httpNet now nsp htok).1.verified_at
        (HttpWellKnownVerifier.verify_namespace httpNet now nsp htok).1.expires_at
        (HttpWellKnownVerifier.verify_namespace httpNet now nsp htok).1.error_message ∧
      ResultTimeInvariant (365 * 86400)
        (MCPVerificationSystem.verify_namespace ghNet dnsNet httpNet now rand nsp
          tok oauth).1.success
        (MCPVerificationSystem.verify_namespace ghNet dnsNet httpNet now rand nsp
          tok oauth).1.verified_at
        (MCPVerificationSystem.verify_namespace ghNet dnsNet httpNet now rand nsp
          tok oauth).1.expires_at
        (MCPVerificationSystem.verify_namespace ghNet dnsNet httpNet now rand nsp
          tok oauth).1.error_message :=
  fun ghNet dnsNet httpNet now rand nsp dtok htok oauthS tok oauth =>
    ⟨dns_inv dnsNet now nsp dtok, gh_inv ghNet now rand nsp oauthS,
     http_inv httpNet now nsp htok,
     dispatch_inv ghNet dnsNet httpNet now rand nsp tok oauth⟩
